import Mathlib

/-!
Shallow embedding of the sqlite-to-postgresql migration tool (`main.py`).

Runtime values fetched from the source store are modelled by `Value`
(a closed tagged union of the dynamic kinds that occur: null, bool,
int, float, text, blob).  Python floats are modelled by rationals: the
only float operation the program performs is `int(x)` truncation toward
zero, which rationals model exactly.  The two database cursors are
modelled by pure oracles: a `data` function giving the rows a
`SELECT column FROM table` sampling query returns, and an `insertOk`
predicate saying whether the target store accepts an executed insert.
Side effects on the target connection (DDL execution, row inserts,
commits, rollbacks) are recorded as an `Event` trace.
-/

namespace SqliteToPg

/-- A dynamic runtime value as fetched from the source database. -/
inductive Value where
  | null
  | bool (b : Bool)
  | int (n : Int)
  | float (q : Rat)
  | text (s : String)
  | blob (s : String)
deriving DecidableEq, Repr

/-- A value-level coercion failure (a Python exception raised while
converting one cell: `ValueError` from `int`/`float`, or
`AttributeError` from calling `isdigit` on a float). -/
inductive CoercionError where
  | err
deriving DecidableEq, Repr

/-- An observable effect on the target (PostgreSQL) connection. -/
inductive Event where
  | executeDDL (query : String)
  | insertRow (query : String) (row : List Value)
  | commit
  | rollback
deriving DecidableEq, Repr

/-- One row of `PRAGMA table_info(<table>)`: the source-side description
of one column (`cid, name, type, notnull, dflt_value, pk`).  `notnull`
and `pk` are the integers SQLite reports; the code branches on their
Python truthiness. -/
structure ColumnInfo where
  cid : Nat
  name : String
  type : String
  notnull : Nat
  dflt_value : Option String
  pk : Nat
deriving DecidableEq, Repr

/-- One configured extra column (`config.py` `AdditionalColumn`):
a target type name and a default value appended to every row. -/
structure AdditionalColumn where
  type : String
  default_value : Value
deriving DecidableEq, Repr

/-- One source table: its name, its `PRAGMA table_info` schema, its
unique constraints (index name, ordered columns), and its rows as
`SELECT *` returns them. -/
structure SourceTable where
  name : String
  schema : List ColumnInfo
  uniques : List (String × List String)
  rows : List (List Value)
deriving DecidableEq, Repr

deriving instance DecidableEq for Except

/-! ### String helpers modelling the Python primitives used

The built-in `String` operations `toUpper`, `startsWith`, `trim`,
`splitOn` are iterator-based and do not reduce well inside the kernel,
so the Python string primitives are modelled directly on the character
list of a string. -/

/-- Model of Python `s.upper()` (ASCII, as used by `re.IGNORECASE`
on these patterns). -/
def pyUpper (s : String) : String := ⟨s.data.map Char.toUpper⟩

/-- Model of Python `s.lower()` (ASCII). -/
def pyLower (s : String) : String := ⟨s.data.map Char.toLower⟩

/-- `re.match` of a literal pattern: does `pre` occur at the start of `s`? -/
def startsWithStr (s pre : String) : Bool :=
  s.data.take pre.data.length = pre.data

/-- ASCII whitespace, for Python `int`/`float` argument stripping. -/
def isPySpace (c : Char) : Bool :=
  c = ' ' || c = '\t' || c = '\n' || c = '\r'

/-- Model of Python `s.strip()` as performed by `int(s)` / `float(s)`. -/
def pyStrip (s : String) : String :=
  ⟨((s.data.dropWhile isPySpace).reverse.dropWhile isPySpace).reverse⟩

/-- Model of Python `u.split(".")` on a character list. -/
def splitDot : List Char → List (List Char)
  | [] => [[]]
  | c :: t =>
    if c = '.' then [] :: splitDot t
    else
      match splitDot t with
      | [] => [[c]]
      | h :: r => (c :: h) :: r

/-- Model of Python `", ".join(l)`. -/
def commaJoin : List String → String
  | [] => ""
  | [c] => c
  | c :: c2 :: rest => c ++ ", " ++ commaJoin (c2 :: rest)

/-- Model of Python `" ".join(l)`. -/
def spaceJoin : List String → String
  | [] => ""
  | [c] => c
  | c :: c2 :: rest => c ++ " " ++ spaceJoin (c2 :: rest)

/-- Model of Python `s.rstrip(', ')`: strip every trailing comma and
space character. -/
def rstripCommaSpace (s : String) : String :=
  ⟨(s.data.reverse.dropWhile fun c => c = ',' || c = ' ').reverse⟩

/-- Nonempty run of decimal digits. -/
def isDigits (l : List Char) : Bool :=
  !l.isEmpty && l.all Char.isDigit

/-- Numeric value of a digit run. -/
def digitsVal (l : List Char) : Nat :=
  l.foldl (fun n c => 10 * n + (c.toNat - Char.toNat '0')) 0

/-- Model of Python `s.isdigit()` on the ASCII strings that occur here:
nonempty and all characters are decimal digits. -/
def pyIsDigit (s : String) : Bool :=
  isDigits s.data

/-- Model of Python `int(s)` on a string: optional surrounding
whitespace, an optional sign, then a nonempty digit run; anything else
raises `ValueError` (`none`). -/
def pyIntOfString (s : String) : Option Int :=
  match (pyStrip s).data with
  | '-' :: rest => if isDigits rest then some (-(digitsVal rest : Int)) else none
  | '+' :: rest => if isDigits rest then some ((digitsVal rest : Int)) else none
  | t => if isDigits t then some ((digitsVal t : Int)) else none

/-- Model of Python `float(s)` on the decimal forms used here:
optional surrounding whitespace, an optional sign, then `a`, `a.b`,
`.b` or `a.` with `a`, `b` digit runs not both empty.  Anything else
raises `ValueError` (`none`). -/
def pyFloatOfString (s : String) : Option Rat :=
  let core := fun (u : List Char) =>
    match splitDot u with
    | [a] => if isDigits a then some ((digitsVal a : Rat)) else none
    | [a, b] =>
        if (isDigits a || a.isEmpty) && (isDigits b || b.isEmpty) && !(a.isEmpty && b.isEmpty)
        then some ((digitsVal a : Rat) + (digitsVal b : Rat) / ((10 : Rat) ^ b.length))
        else none
    | _ => none
  match (pyStrip s).data with
  | '-' :: rest => (core rest).map (fun q => -q)
  | '+' :: rest => core rest
  | t => core t

/-- Model of Python `int(x)` on a float: truncation toward zero,
computed as truncating division of the reduced numerator by the
denominator. -/
def ratTrunc (q : Rat) : Int :=
  q.num.tdiv q.den

/-- Model of Python `str(x)` for the value kinds that occur.  Exact
Python renderings of floats and byte strings are not load-bearing
anywhere in the program; the int/bool/text renderings are exact. -/
def pyStrOfValue : Value → String
  | Value.null => "None"
  | Value.bool true => "True"
  | Value.bool false => "False"
  | Value.int n => toString n
  | Value.float q => toString q
  | Value.text s => s
  | Value.blob s => "b" ++ s

/-! ### Type mapping (`convert_type`, `determine_column_type`) -/

/-- ASCII uppercase letter test, used for the `[A-Z]` character class
under `re.IGNORECASE` after upper-casing. -/
def isUpperAlpha (c : Char) : Bool :=
  'A' ≤ c && c ≤ 'Z'

/-- Model of `re.match(r"[A-Z]\x7b0,3\x7dINT[0-9A-Z]*", s, re.IGNORECASE)`:
a match at the start of the string exists iff for some `k ≤ 3` the
first `k` characters are letters and the next three are `INT`
(case-insensitively); the trailing `[0-9A-Z]*` may match empty, so it
imposes no constraint. -/
def intPatternMatch (s : String) : Bool :=
  let u := (pyUpper s).data
  (List.range 4).any fun k =>
    ((u.take k).all isUpperAlpha) && ((u.drop k).take 3 = ['I', 'N', 'T'])

/-- `convert_type` (`main.py:170`): ordered first-match dispatch of a
declared SQLite type name to a PostgreSQL type name; `re.match` anchors
at the start only, so each literal pattern is a case-insensitive prefix
test, and an unmatched name falls through to `TEXT`. -/
def convert_type (sqlite_type : String) : String :=
  let u := pyUpper sqlite_type
  if intPatternMatch sqlite_type then "INTEGER"
  else if startsWithStr u "TEXT" || startsWithStr u "STRING" then "TEXT"
  else if startsWithStr u "BLOB" then "BYTEA"
  else if startsWithStr u "REAL" then "DOUBLE PRECISION"
  else if startsWithStr u "NUMERIC" then "NUMERIC"
  else if startsWithStr u "BOOL" then "BOOLEAN"
  else if startsWithStr u "FLOAT" then "DOUBLE PRECISION"
  else "TEXT"

/-- The integer-width resolution inlined in `determine_column_type`
(`main.py:53-60`), on the non-null samples of one column. -/
def resolveIntegerWidth (sample_data : List Int) : String :=
  if sample_data.isEmpty then "INTEGER"
  else if sample_data.any (fun v => |v| > 2 ^ 63 - 1) then "NUMERIC"
  else if sample_data.any (fun v => |v| > 2 ^ 31 - 1) then "BIGINT"
  else "INTEGER"

/-- `determine_column_type` (`main.py:46`).  `data table column` is the
column of values a `SELECT column FROM table` sampling query returns
(`None` entries as `none`); the query is only issued in the branch that
uses it. -/
def determine_column_type (data : String → String → List (Option Int))
    (table_name column_name : String) (column_type : String) : String :=
  if pyUpper column_type ≠ "INTEGER" then convert_type column_type
  else resolveIntegerWidth ((data table_name column_name).filterMap id)

/-! ### DDL building (`create_table_query`) -/

/-- Python truthiness of a `dflt_value` field (`None` and the empty
string are falsy, any other string is truthy). -/
def truthyOptStr : Option String → Bool
  | none => false
  | some s => !s.data.isEmpty

/-- The clause emitted for one native column (`main.py:66-79`): name,
resolved type, then the applicable constraints joined by single spaces
in the fixed order `PRIMARY KEY`, `NOT NULL`, `DEFAULT <literal>`. -/
def nativeColumnClause (pg_col_type : String) (c : ColumnInfo) : String :=
  let constraints :=
    (if c.pk ≠ 0 then ["PRIMARY KEY"] else []) ++
    (if c.notnull ≠ 0 then ["NOT NULL"] else []) ++
    (if truthyOptStr c.dflt_value then ["DEFAULT " ++ c.dflt_value.getD ""] else [])
  let constraints_str := spaceJoin constraints
  let constraints_str := if !constraints_str.data.isEmpty then " " ++ constraints_str else constraints_str
  c.name ++ " " ++ pg_col_type ++ constraints_str

/-- The clause emitted for one configured extra column (`main.py:81-83`). -/
def extraColumnClause (p : String × AdditionalColumn) : String :=
  p.1 ++ " " ++ convert_type p.2.type

/-- The clause emitted for one unique constraint (`main.py:85-86`). -/
def uniqueClause (u : String × List String) : String :=
  "UNIQUE (" ++ commaJoin u.2 ++ ")"

/-- `create_table_query` (`main.py:63`): accumulate `<clause>, ` per
native column, extra column and unique constraint onto the
`CREATE TABLE IF NOT EXISTS <table> (` prefix, then strip the trailing
`, ` with `rstrip(', ')` and close with `);`. -/
def create_table_query (data : String → String → List (Option Int)) (table_name : String)
    (columns : List ColumnInfo) (additional_columns : List (String × AdditionalColumn))
    (unique_constraints : List (String × List String)) : String :=
  let query := "CREATE TABLE IF NOT EXISTS " ++ table_name ++ " ("
  let query := columns.foldl
    (fun q c => q ++ nativeColumnClause (determine_column_type data table_name c.name c.type) c ++ ", ")
    query
  let query := additional_columns.foldl (fun q p => q ++ extraColumnClause p ++ ", ") query
  let query := unique_constraints.foldl (fun q u => q ++ uniqueClause u ++ ", ") query
  rstripCommaSpace query ++ ");"

/-! ### Row coercion (`insert_data`, `main.py:96-120`) -/

/-- The `row = [v if v != "None" else None for v in row]` substitution
(`main.py:98`): only the exact text `"None"` compares equal to `"None"`
in Python, every other value kind is `!=` to a string. -/
def noneToNull (v : Value) : Value :=
  if v = Value.text "None" then Value.null else v

/-- Coercion of one cell already substituted by `noneToNull`, given the
column's converted type (`main.py:100-117`).  A `CoercionError` is a
Python exception escaping the branch: `AttributeError` from
`float.isdigit` in the BOOLEAN branch, or `ValueError` from `int`/`float`
parsing.  Note the BOOLEAN branch has no final `else`: unrecognized text
falls through all four tests and the cell is left unchanged. -/
def coerceCell (col_type : String) (v : Value) : Except CoercionError Value :=
  if v = Value.null then Except.ok Value.null
  else if col_type = "BOOLEAN" then
    match v with
    | Value.bool _ => Except.ok v
    | Value.int n => Except.ok (Value.bool (n ≠ 0))
    | Value.float _ => Except.error CoercionError.err
    | Value.text s =>
        if pyIsDigit s then Except.ok (Value.bool (digitsVal s.data ≠ 0))
        else if pyLower s = "true" then Except.ok (Value.bool true)
        else if pyLower s = "false" then Except.ok (Value.bool false)
        else Except.ok v
    | Value.blob s =>
        if pyIsDigit s then Except.ok (Value.bool (digitsVal s.data ≠ 0))
        else Except.ok v
    | Value.null => Except.ok Value.null
  else if col_type = "TEXT" then Except.ok (Value.text (pyStrOfValue v))
  else if col_type = "INTEGER" ∨ col_type = "BIGINT" ∨ col_type = "NUMERIC" then
    match v with
    | Value.bool b => Except.ok (Value.int (if b then 1 else 0))
    | Value.int n => Except.ok (Value.int n)
    | Value.float q => Except.ok (Value.int (ratTrunc q))
    | Value.text s =>
        match pyIntOfString s with
        | some n => Except.ok (Value.int n)
        | none => Except.error CoercionError.err
    | Value.blob s =>
        match pyIntOfString s with
        | some n => Except.ok (Value.int n)
        | none => Except.error CoercionError.err
    | Value.null => Except.ok Value.null
  else if col_type = "DOUBLE PRECISION" then
    match v with
    | Value.bool b => Except.ok (Value.float (if b then 1 else 0))
    | Value.int n => Except.ok (Value.float n)
    | Value.float q => Except.ok (Value.float q)
    | Value.text s =>
        match pyFloatOfString s with
        | some q => Except.ok (Value.float q)
        | none => Except.error CoercionError.err
    | Value.blob s =>
        match pyFloatOfString s with
        | some q => Except.ok (Value.float q)
        | none => Except.error CoercionError.err
    | Value.null => Except.ok Value.null
  else Except.ok v

/-- The `for i, col in enumerate(columns)` coercion loop
(`main.py:100-117`): position `i` of the row is coerced under column
`i`; indexing past the end of the row raises `IndexError`
(`Except.error`); row values beyond the columns are left untouched. -/
def coerceCells : List ColumnInfo → List Value → Except CoercionError (List Value)
  | [], rest => Except.ok rest
  | _ :: _, [] => Except.error CoercionError.err
  | c :: cs, v :: vs =>
    match coerceCell (convert_type c.type) v with
    | Except.error e => Except.error e
    | Except.ok v2 =>
      match coerceCells cs vs with
      | Except.error e => Except.error e
      | Except.ok rest => Except.ok (v2 :: rest)

/-- One full row through the body of the try block before `execute`:
the `"None"` substitution, the positional coercion loop, then the
configured extra-column default values appended (`main.py:119-120`). -/
def coerceRowValues (columns : List ColumnInfo)
    (additional_columns : List (String × AdditionalColumn)) (row : List Value) :
    Except CoercionError (List Value) :=
  (coerceCells columns (row.map noneToNull)).map
    (fun r => r ++ additional_columns.map (fun p => p.2.default_value))

/-- The INSERT statement built once per `insert_data` call
(`main.py:92-94`). -/
def insert_query (table_name : String) (columns : List ColumnInfo)
    (additional_columns : List (String × AdditionalColumn)) : String :=
  let col_names := commaJoin (columns.map ColumnInfo.name ++ additional_columns.map Prod.fst)
  let placeholders := commaJoin (List.replicate (columns.length + additional_columns.length) "%s")
  "INSERT INTO " ++ table_name ++ " (" ++ col_names ++ ") VALUES (" ++ placeholders ++ ")"

/-- Outcome of `insert_data`: the event trace on the target connection
and whether `exit(1)` was reached. -/
structure InsertOutcome where
  events : List Event
  exited : Bool
deriving DecidableEq, Repr

/-- The `for j, row in enumerate(rows)` loop of `insert_data`
(`main.py:96-131`): per row, coerce, execute the insert (`insertOk`
models whether the target store accepts it), and commit when
`j % 16384 == 0`; any exception prints, rolls back and exits with
code 1; after the loop one final commit. -/
def insertLoop (insertOk : List Value → Bool) (query : String) (columns : List ColumnInfo)
    (additional_columns : List (String × AdditionalColumn)) :
    Nat → List (List Value) → InsertOutcome
  | _, [] => ⟨[Event.commit], false⟩
  | j, row :: rest =>
    match coerceRowValues columns additional_columns row with
    | Except.error _ => ⟨[Event.rollback], true⟩
    | Except.ok vals =>
      if insertOk vals then
        let tail := insertLoop insertOk query columns additional_columns (j + 1) rest
        ⟨Event.insertRow query vals :: ((if j % 16384 = 0 then [Event.commit] else []) ++ tail.events),
         tail.exited⟩
      else ⟨[Event.insertRow query vals, Event.rollback], true⟩

/-- `insert_data` (`main.py:91`). -/
def insert_data (insertOk : List Value → Bool) (table_name : String) (columns : List ColumnInfo)
    (rows : List (List Value)) (additional_columns : List (String × AdditionalColumn)) :
    InsertOutcome :=
  insertLoop insertOk (insert_query table_name columns additional_columns)
    columns additional_columns 0 rows

/-! ### Orchestration (`sqlite_to_postgresql`, `main.py:134`) -/

/-- The value the Python variable `columns` holds when the copy loop
(`main.py:159`) runs: the planning loop (`main.py:143-148`) assigned it
once per table, so after that loop it holds the LAST table's schema,
and the copy loop never reassigns it. -/
def leakedColumns (tables : List SourceTable) : List ColumnInfo :=
  ((tables.getLast?).map SourceTable.schema).getD []

/-- The copy loop (`main.py:159-165`): per table, execute its CREATE
statement, fetch its rows, and when nonempty run `insert_data` —
passing the leaked `columns` variable, not this table's own schema.
An `exit(1)` inside `insert_data` ends the whole run with code 1. -/
def copyLoop (insertOk : List Value → Bool) (data : String → String → List (Option Int))
    (leak : List ColumnInfo) (additional_columns : List (String × AdditionalColumn)) :
    List SourceTable → List Event × Nat
  | [] => ([], 0)
  | t :: rest =>
    let ddl := create_table_query data t.name t.schema additional_columns t.uniques
    if t.rows.isEmpty then
      let tail := copyLoop insertOk data leak additional_columns rest
      (Event.executeDDL ddl :: tail.1, tail.2)
    else
      let out := insert_data insertOk t.name leak t.rows additional_columns
      if out.exited then (Event.executeDDL ddl :: out.events, 1)
      else
        let tail := copyLoop insertOk data leak additional_columns rest
        (Event.executeDDL ddl :: (out.events ++ tail.1), tail.2)

/-- `sqlite_to_postgresql` (`main.py:134`): plan all tables, show the
DDL, ask for confirmation (`confirm` models the user answering `y`);
on decline, close connections and return (process exit code 0); on
confirm, run the copy loop.  Result: the target-connection event trace
and the process exit code. -/
def sqlite_to_postgresql (confirm : Bool) (insertOk : List Value → Bool)
    (data : String → String → List (Option Int)) (tables : List SourceTable)
    (additional_columns : List (String × AdditionalColumn)) : List Event × Nat :=
  if !confirm then ([], 0)
  else copyLoop insertOk data (leakedColumns tables) additional_columns tables

/-! ### Spec-side comparison definitions

These definitions follow the specification's wording (ordered
first-match pattern list, clause-list `CREATE TABLE` assembly, commit
cadence); the theorems below compare them with the source-translated
definitions above. -/

/-- The spec's ordered list of `(pattern, target type)` pairs (§4.1),
each pattern a case-insensitive test, first match wins. -/
def orderedPatterns : List ((String → Bool) × String) :=
  [(fun s => intPatternMatch s, "INTEGER"),
   (fun s => startsWithStr (pyUpper s) "TEXT" || startsWithStr (pyUpper s) "STRING", "TEXT"),
   (fun s => startsWithStr (pyUpper s) "BLOB", "BYTEA"),
   (fun s => startsWithStr (pyUpper s) "REAL", "DOUBLE PRECISION"),
   (fun s => startsWithStr (pyUpper s) "NUMERIC", "NUMERIC"),
   (fun s => startsWithStr (pyUpper s) "BOOL", "BOOLEAN"),
   (fun s => startsWithStr (pyUpper s) "FLOAT", "DOUBLE PRECISION")]

/-- The spec's `mapDeclaredType` (§4.1): try the ordered pattern list,
first match wins, unmatched input defaults to `TEXT`. -/
def mapDeclaredTypeSpec (s : String) : String :=
  (orderedPatterns.findSome? fun p => if p.1 s then some p.2 else none).getD "TEXT"

/-- The spec-side `buildCreateTable` (§4.3): the statement
`CREATE TABLE IF NOT EXISTS <table> (<comma-separated clauses>);` with
the clause list in exactly the order native columns, extra columns,
unique constraints. -/
def buildCreateTableSpec (data : String → String → List (Option Int)) (table_name : String)
    (columns : List ColumnInfo) (additional_columns : List (String × AdditionalColumn))
    (unique_constraints : List (String × List String)) : String :=
  "CREATE TABLE IF NOT EXISTS " ++ table_name ++ " (" ++
    commaJoin
      (columns.map (fun c =>
          nativeColumnClause (determine_column_type data table_name c.name c.type) c) ++
        additional_columns.map extraColumnClause ++
        unique_constraints.map uniqueClause) ++
    ");"

/-- Projection of an event trace to its commit positions. -/
def isCommit : Event → Bool
  | Event.commit => true
  | _ => false

/-- The commit cadence the code actually implements during one table's
copy, as a commit-position pattern over the event trace: starting at
0-based row index `j`, each row contributes a non-commit insert event
followed by a commit exactly when `j % 16384 = 0`, and the table ends
with one final commit. -/
def batchCommitShape : Nat → Nat → List Bool
  | _, 0 => [true]
  | j, n + 1 => false :: ((if j % 16384 = 0 then [true] else []) ++ batchCommitShape (j + 1) n)

/-- `<clause>, ` concatenation as the `query += ...` loops produce it. -/
def trailJoin : List String → String
  | [] => ""
  | c :: t => c ++ ", " ++ trailJoin t

/-- A string whose last character survives `rstrip(', ')`: it does not
end in a comma or a space. -/
def SafeEnd (s : String) : Prop :=
  s.data.getLast? ≠ some ',' ∧ s.data.getLast? ≠ some ' '

/-- A well-behaved clause string: nonempty, and its trailing character
is not eaten by `rstrip(', ')`. -/
def GoodClause (s : String) : Prop :=
  s.data ≠ [] ∧ SafeEnd s

/-- First table of the stale-`columns` failing input: `a(x TEXT)` with
one single-value row. -/
def bugTableA : SourceTable :=
  ⟨"a", [⟨0, "x", "TEXT", 0, none, 0⟩], [], [[Value.int 1]]⟩

/-- Second table of the stale-`columns` failing input: `b(y TEXT, z TEXT)`
with no rows.  After the planning loop the Python variable `columns`
holds this schema. -/
def bugTableB : SourceTable :=
  ⟨"b", [⟨0, "y", "TEXT", 0, none, 0⟩, ⟨1, "z", "TEXT", 0, none, 0⟩], [], []⟩

/-- The rational 3.9 (= 39/10), given in lowest terms so that it
reduces inside the kernel. -/
def q39over10 : Rat := ⟨39, 10, by decide, by decide⟩

/-- The rational -3.9 (= -39/10). -/
def qNeg39over10 : Rat := ⟨-39, 10, by decide, by decide⟩

/-! ## Theorems -/

/-- Python `int()` truncation on a float goes toward zero: truncating
division agrees with the floor for nonnegative arguments and with the
ceiling for negative ones. -/
theorem ratTrunc_toward_zero (q : Rat) : ratTrunc q = if q < 0 then ⌈q⌉ else ⌊q⌋ := by
  unfold ratTrunc
  split_ifs with h
  · have hnum : q.num ≤ 0 := by
      rw [Rat.num_nonpos]
      exact le_of_lt h
    have h1 : q.num.tdiv q.den = -((-q.num).tdiv q.den) := by
      rw [Int.neg_tdiv, neg_neg]
    rw [h1, Int.tdiv_eq_ediv (by omega) (by positivity)]
    have h2 : ⌈q⌉ = -⌊-q⌋ := by rw [Int.floor_neg]; ring
    rw [h2, Rat.floor_def, Rat.neg_num, Rat.neg_den]
  · have hq : 0 ≤ q := not_lt.mp h
    have hnum : 0 ≤ q.num := Rat.num_nonneg.mpr hq
    rw [Int.tdiv_eq_ediv hnum (by positivity), Rat.floor_def]

/-- C6: `convert_type` is a pure total function on arbitrary declared
type strings, equal to the spec's ordered first-match dispatch over the
pattern list (integer pattern, then `TEXT|STRING`, `BLOB`, `REAL`,
`NUMERIC`, `BOOL`, `FLOAT`, each a case-insensitive prefix test), with
unmatched input defaulting to `TEXT`. -/
theorem C6_mapDeclaredType_total_first_match (s : String) :
    convert_type s = mapDeclaredTypeSpec s := by
  unfold convert_type mapDeclaredTypeSpec orderedPatterns
  simp only [List.findSome?_cons, List.findSome?_nil]
  by_cases h1 : intPatternMatch s = true <;>
    by_cases h2 : (startsWithStr (pyUpper s) "TEXT" || startsWithStr (pyUpper s) "STRING") = true <;>
    by_cases h3 : startsWithStr (pyUpper s) "BLOB" = true <;>
    by_cases h4 : startsWithStr (pyUpper s) "REAL" = true <;>
    by_cases h5 : startsWithStr (pyUpper s) "NUMERIC" = true <;>
    by_cases h6 : startsWithStr (pyUpper s) "BOOL" = true <;>
    by_cases h7 : startsWithStr (pyUpper s) "FLOAT" = true <;>
    simp [h1, h2, h3, h4, h5, h6, h7]

/-- C6 witness: the theorem applied at a declared type matching no
pattern. -/
theorem C6_mapDeclaredType_witness :
    convert_type "varchar(10)" = mapDeclaredTypeSpec "varchar(10)" :=
  C6_mapDeclaredType_total_first_match "varchar(10)"

/-- C5: `resolveIntegerWidth` resolves to `INTEGER` on an empty sample
list, `NUMERIC` as soon as some magnitude exceeds `2^63 - 1`, `BIGINT`
when all magnitudes fit `2^63 - 1` but some exceeds `2^31 - 1`, and
`INTEGER` when all fit `2^31 - 1`; in particular on `[]`, `[5]`,
`[2^31]` and `[2^63]`. -/
theorem C5_resolveIntegerWidth_policy (l : List Int) :
    (l = [] → resolveIntegerWidth l = "INTEGER") ∧
    ((∃ v ∈ l, |v| > 2 ^ 63 - 1) → resolveIntegerWidth l = "NUMERIC") ∧
    ((∀ v ∈ l, |v| ≤ 2 ^ 63 - 1) → (∃ v ∈ l, |v| > 2 ^ 31 - 1) →
      resolveIntegerWidth l = "BIGINT") ∧
    ((∀ v ∈ l, |v| ≤ 2 ^ 31 - 1) → resolveIntegerWidth l = "INTEGER") ∧
    resolveIntegerWidth ([] : List Int) = "INTEGER" ∧
    resolveIntegerWidth [5] = "INTEGER" ∧
    resolveIntegerWidth [2 ^ 31] = "BIGINT" ∧
    resolveIntegerWidth [2 ^ 63] = "NUMERIC" := by
  unfold resolveIntegerWidth
  refine ⟨?_, ?_, ?_, ?_, by norm_num, by norm_num, by norm_num, by norm_num⟩
  · rintro rfl
    simp
  · rintro ⟨v, hv, hgt⟩
    have hne : l.isEmpty ≠ true := by
      intro h
      rw [List.isEmpty_iff] at h
      subst h
      cases hv
    rw [if_neg hne,
      if_pos (by rw [List.any_eq_true]; exact ⟨v, hv, by simpa using hgt⟩)]
  · intro hall
    rintro ⟨v, hv, hgt⟩
    have hne : l.isEmpty ≠ true := by
      intro h
      rw [List.isEmpty_iff] at h
      subst h
      cases hv
    have h63 : ¬ l.any (fun v => decide (|v| > 2 ^ 63 - 1)) = true := by
      rw [List.any_eq_true]
      rintro ⟨w, hw, hwgt⟩
      have := hall w hw
      simp at hwgt
      omega
    rw [if_neg hne, if_neg h63,
      if_pos (by rw [List.any_eq_true]; exact ⟨v, hv, by simpa using hgt⟩)]
  · intro hall
    by_cases hne : l.isEmpty = true
    · rw [if_pos hne]
    · have h63 : ¬ l.any (fun v => decide (|v| > 2 ^ 63 - 1)) = true := by
        rw [List.any_eq_true]
        rintro ⟨w, hw, hwgt⟩
        have := hall w hw
        simp at hwgt
        omega
      have h31 : ¬ l.any (fun v => decide (|v| > 2 ^ 31 - 1)) = true := by
        rw [List.any_eq_true]
        rintro ⟨w, hw, hwgt⟩
        have := hall w hw
        simp at hwgt
        omega
      rw [if_neg hne, if_neg h63, if_neg h31]

/-- C5 witness: the theorem applied at the concrete sample `[2^31]`. -/
theorem C5_resolveIntegerWidth_witness :
    resolveIntegerWidth [2 ^ 31] = "BIGINT" :=
  (C5_resolveIntegerWidth_policy [2 ^ 31]).2.2.1 (by norm_num) (by norm_num)

/-- C2 counterexample: the declared type `INT` matches the integer
pattern of step 1, yet `determine_column_type` resolves it to
`INTEGER` without consulting the sampled data — had
`resolveIntegerWidth` been applied to the sample `[2^63]` as the claim
states, the result would have been `NUMERIC`. -/
theorem C2_cex_int_not_sampled :
    intPatternMatch "INT" = true ∧
    determine_column_type (fun _ _ => [some (2 ^ 63)]) "t" "c" "INT" = "INTEGER" ∧
    resolveIntegerWidth (List.filterMap id [some ((2 : Int) ^ 63)]) = "NUMERIC" := by
  refine ⟨by decide, by decide, by decide⟩

/-- C2 (amended): sampling-based width inference is applied exactly
when the declared type upper-cases to the exact word `INTEGER`; a
column with any other declared type — including other integer-pattern
matches such as `INT` or `BIGINT` — is resolved by `convert_type`
alone, independent of the table data (no sampling query issued). -/
theorem C2_sampling_only_for_exact_integer
    (data data2 : String → String → List (Option Int)) (t c ct : String) :
    (pyUpper ct = "INTEGER" →
      determine_column_type data t c ct = resolveIntegerWidth ((data t c).filterMap id)) ∧
    (pyUpper ct ≠ "INTEGER" →
      determine_column_type data t c ct = convert_type ct ∧
      determine_column_type data t c ct = determine_column_type data2 t c ct) := by
  constructor
  · intro h
    simp [determine_column_type, h]
  · intro h
    simp [determine_column_type, h]

/-- C2 witness: the theorem applied at the declared type `InTeGeR`,
where sampling does happen. -/
theorem C2_sampling_witness :
    determine_column_type (fun _ _ => [some 7]) "t" "c" "InTeGeR" =
      resolveIntegerWidth (List.filterMap id [some (7 : Int)]) :=
  (C2_sampling_only_for_exact_integer (fun _ _ => [some 7]) (fun _ _ => [some 7])
    "t" "c" "InTeGeR").1 (by decide)

/-- C3 counterexample: coercing the text `"maybe"` toward a BOOLEAN
column does not raise a `CoercionError` in the coercion step — the
value falls through every branch unchanged (the failure, if any, can
only surface later when the INSERT executes). -/
theorem C3_cex_maybe_passes_through :
    coerceCell "BOOLEAN" (Value.text "maybe") = Except.ok (Value.text "maybe") ∧
    coerceCell "BOOLEAN" (Value.text "maybe") ≠ Except.error CoercionError.err := by
  refine ⟨by decide, by decide⟩

/-- C3 (amended): BOOLEAN coercion maps booleans through, `1`/`"1"`/
`"true"`/`"TRUE"` to true and `0`/`"0"`/`"false"` to false, but a
textual form that is neither all digits nor case-insensitively
`true`/`false` is passed through unchanged by the coercion step rather
than raising a `CoercionError` there. -/
theorem C3_boolean_coercion :
    coerceCell "BOOLEAN" (Value.bool true) = Except.ok (Value.bool true) ∧
    coerceCell "BOOLEAN" (Value.bool false) = Except.ok (Value.bool false) ∧
    coerceCell "BOOLEAN" (Value.int 1) = Except.ok (Value.bool true) ∧
    coerceCell "BOOLEAN" (Value.text "1") = Except.ok (Value.bool true) ∧
    coerceCell "BOOLEAN" (Value.text "true") = Except.ok (Value.bool true) ∧
    coerceCell "BOOLEAN" (Value.text "TRUE") = Except.ok (Value.bool true) ∧
    coerceCell "BOOLEAN" (Value.int 0) = Except.ok (Value.bool false) ∧
    coerceCell "BOOLEAN" (Value.text "0") = Except.ok (Value.bool false) ∧
    coerceCell "BOOLEAN" (Value.text "false") = Except.ok (Value.bool false) ∧
    ∀ s : String, pyIsDigit s = false → pyLower s ≠ "true" → pyLower s ≠ "false" →
      coerceCell "BOOLEAN" (Value.text s) = Except.ok (Value.text s) := by
  refine ⟨by decide, by decide, by decide, by decide, by decide, by decide, by decide,
    by decide, by decide, ?_⟩
  intro s h1 h2 h3
  simp [coerceCell, h1, h2, h3]

/-- C3 witness: the theorem's universally quantified part applied at
the unrecognized text `"xyz"`. -/
theorem C3_boolean_coercion_witness :
    coerceCell "BOOLEAN" (Value.text "xyz") = Except.ok (Value.text "xyz") :=
  C3_boolean_coercion.2.2.2.2.2.2.2.2.2 "xyz" (by decide) (by decide) (by decide)

/-- C10: a float with a fractional part headed for `INTEGER`, `BIGINT`
or `NUMERIC` does not fail: it is truncated toward zero (3.9 becomes 3,
-3.9 becomes -3), while non-numeric text in the same position is a
`CoercionError`. -/
theorem C10_float_truncation (col_type : String)
    (hct : col_type = "INTEGER" ∨ col_type = "BIGINT" ∨ col_type = "NUMERIC") (q : Rat) :
    coerceCell col_type (Value.float q) = Except.ok (Value.int (ratTrunc q)) ∧
    ratTrunc q = (if q < 0 then ⌈q⌉ else ⌊q⌋) ∧
    coerceCell col_type (Value.text "abc") = Except.error CoercionError.err ∧
    coerceCell "INTEGER" (Value.float q39over10) = Except.ok (Value.int 3) ∧
    coerceCell "INTEGER" (Value.float qNeg39over10) = Except.ok (Value.int (-3)) := by
  rcases hct with h | h | h <;> subst h <;>
    exact ⟨rfl, ratTrunc_toward_zero q, by decide, by decide, by decide⟩

/-- C10 witness: the theorem applied at `NUMERIC` and 3.9. -/
theorem C10_float_truncation_witness :
    coerceCell "NUMERIC" (Value.float q39over10) = Except.ok (Value.int (ratTrunc q39over10)) :=
  (C10_float_truncation "NUMERIC" (Or.inr (Or.inr rfl)) q39over10).1

/-- A null cell is passed through by `coerceCell` whatever the target
type is. -/
theorem coerceCell_null (ct : String) : coerceCell ct Value.null = Except.ok Value.null := by
  simp [coerceCell]

/-- Through the positional coercion loop, a null input cell stays null
at its position. -/
theorem coerceCells_null_at (cols : List ColumnInfo) :
    ∀ vals out : List Value, coerceCells cols vals = Except.ok out →
      ∀ i : Nat, vals[i]? = some Value.null → out[i]? = some Value.null := by
  induction cols with
  | nil =>
    intro vals out h i hv
    rw [coerceCells] at h
    cases h
    exact hv
  | cons c cs ih =>
    intro vals out h i hv
    cases vals with
    | nil => simp at hv
    | cons v vs =>
      rw [coerceCells] at h
      cases hc : coerceCell (convert_type c.type) v with
      | error e => rw [hc] at h; exact Except.noConfusion h
      | ok v2 =>
        rw [hc] at h
        cases hr : coerceCells cs vs with
        | error e => rw [hr] at h; exact Except.noConfusion h
        | ok rest =>
          rw [hr] at h
          have hout : v2 :: rest = out := by injection h
          subst hout
          cases i with
          | zero =>
            simp only [List.getElem?_cons_zero, Option.some.injEq] at hv
            subst hv
            rw [coerceCell_null] at hc
            have hv2 : Value.null = v2 := by injection hc
            subst hv2
            simp
          | succ n =>
            simp only [List.getElem?_cons_succ] at hv ⊢
            exact ih vs rest hr n hv

/-- C7: a raw value equal to the textual literal `"None"` at any
position of a row is delivered as SQL NULL at that position, whatever
the target type of the column at that position is. -/
theorem C7_none_literal_to_null (columns : List ColumnInfo)
    (additional : List (String × AdditionalColumn)) (row out : List Value) (i : Nat)
    (hv : row[i]? = some (Value.text "None"))
    (h : coerceRowValues columns additional row = Except.ok out) :
    out[i]? = some Value.null := by
  unfold coerceRowValues at h
  cases hm : coerceCells columns (row.map noneToNull) with
  | error e => rw [hm] at h; exact Except.noConfusion h
  | ok mid =>
    rw [hm] at h
    have hout : mid ++ additional.map (fun p => p.2.default_value) = out := by injection h
    subst hout
    have hmap : (row.map noneToNull)[i]? = some Value.null := by
      rw [List.getElem?_map, hv]
      simp [noneToNull]
    have hmid : mid[i]? = some Value.null :=
      coerceCells_null_at columns (row.map noneToNull) mid hm i hmap
    have hilt : i < mid.length := by
      by_contra hge
      rw [List.getElem?_eq_none (by omega)] at hmid
      cases hmid
    rw [List.getElem?_append, if_pos hilt]
    exact hmid

/-- C7 witness: the theorem applied at a one-column BOOLEAN table with
the literal text `"None"` in position 0. -/
theorem C7_none_literal_witness : ([Value.null] : List Value)[0]? = some Value.null :=
  C7_none_literal_to_null [⟨0, "flag", "BOOL", 0, none, 0⟩] [] [Value.text "None"]
    [Value.null] 0 (by decide) (by decide)

/-- C4 counterexample: copying a 2-row table commits right after the
first row (its 0-based index 0 satisfies `j % 16384 == 0`) and again
after the final row — not, as the claim states, only once after the
final row when fewer than 16384 rows are inserted. -/
theorem C4_cex_commit_after_first_row :
    (insert_data (fun _ => true) "t" [⟨0, "x", "TEXT", 0, none, 0⟩]
        [[Value.text "a"], [Value.text "b"]] []).events =
      [Event.insertRow "INSERT INTO t (x) VALUES (%s)" [Value.text "a"], Event.commit,
       Event.insertRow "INSERT INTO t (x) VALUES (%s)" [Value.text "b"], Event.commit] ∧
    (insert_data (fun _ => true) "t" [⟨0, "x", "TEXT", 0, none, 0⟩]
        [[Value.text "a"], [Value.text "b"]] []).events ≠
      [Event.insertRow "INSERT INTO t (x) VALUES (%s)" [Value.text "a"],
       Event.insertRow "INSERT INTO t (x) VALUES (%s)" [Value.text "b"], Event.commit] := by
  refine ⟨by decide, by decide⟩

/-- When every row of the batch coerces and inserts successfully, the
copy loop's event trace has precisely the commit pattern
`batchCommitShape j n`: a commit after each row whose 0-based index is
divisible by 16384, and one final commit. -/
theorem insertLoop_commit_shape (insertOk : List Value → Bool) (query : String)
    (columns : List ColumnInfo) (additional : List (String × AdditionalColumn)) :
    ∀ (rows : List (List Value)) (j : Nat),
      (∀ r ∈ rows, ∃ v, coerceRowValues columns additional r = Except.ok v ∧ insertOk v = true) →
      (insertLoop insertOk query columns additional j rows).events.map isCommit =
        batchCommitShape j rows.length ∧
      (insertLoop insertOk query columns additional j rows).exited = false := by
  intro rows
  induction rows with
  | nil =>
    intro j _
    exact ⟨rfl, rfl⟩
  | cons r rest ih =>
    intro j h
    obtain ⟨v, hv, hok⟩ := h r (List.mem_cons_self r rest)
    have hrest := ih (j + 1) (fun r2 hr2 => h r2 (List.mem_cons_of_mem r hr2))
    simp only [insertLoop, hv, hok, if_true]
    refine ⟨?_, hrest.2⟩
    simp only [List.length_cons, batchCommitShape, List.map_cons, List.map_append, isCommit]
    by_cases hj : j % 16384 = 0 <;>
      simp [hj, hrest.1, isCommit]

/-- C4 (amended): during the copy of one table in which no row fails,
a commit is issued after each row whose 0-based index is a multiple of
16384 — that is, after the 1st, 16385th, 32769th, … inserted rows —
and once more after the table's final row; no commit occurs anywhere
else in the trace. -/
theorem C4_commit_cadence (insertOk : List Value → Bool) (table_name : String)
    (columns : List ColumnInfo) (rows : List (List Value))
    (additional : List (String × AdditionalColumn))
    (h : ∀ r ∈ rows, ∃ v, coerceRowValues columns additional r = Except.ok v ∧ insertOk v = true) :
    (insert_data insertOk table_name columns rows additional).events.map isCommit =
      batchCommitShape 0 rows.length :=
  (insertLoop_commit_shape insertOk (insert_query table_name columns additional)
    columns additional rows 0 h).1

/-- C4 witness: the theorem applied to a concrete 2-row table; the
resulting commit pattern shows the extra commit after the first row. -/
theorem C4_commit_cadence_witness :
    (insert_data (fun _ => true) "w" [⟨0, "x", "TEXT", 0, none, 0⟩]
        [[Value.text "p"], [Value.text "q"]] []).events.map isCommit =
      batchCommitShape 0 2 :=
  C4_commit_cadence (fun _ => true) "w" [⟨0, "x", "TEXT", 0, none, 0⟩]
    [[Value.text "p"], [Value.text "q"]] []
    (by
      intro r hr
      simp only [List.mem_cons, List.not_mem_nil, or_false] at hr
      rcases hr with h1 | h1
      · subst h1
        exact ⟨[Value.text "p"], by decide, rfl⟩
      · subst h1
        exact ⟨[Value.text "q"], by decide, rfl⟩)

/-- If a list ends in `a`, consing an element in front does not change
its last element. -/
theorem getLast?_cons_of_some {α : Type} (x : α) (l : List α) (a : α)
    (h : l.getLast? = some a) : (x :: l).getLast? = some a := by
  have hx : x :: l = [x] ++ l := rfl
  rw [hx, List.getLast?_append, h]
  rfl

/-- The copy loop of one table always ends its event trace with a
rollback when it exits and with the final commit when it does not. -/
theorem insertLoop_getLast (insertOk : List Value → Bool) (query : String)
    (columns : List ColumnInfo) (additional : List (String × AdditionalColumn)) :
    ∀ (rows : List (List Value)) (j : Nat),
      (insertLoop insertOk query columns additional j rows).events.getLast? =
        some (if (insertLoop insertOk query columns additional j rows).exited
              then Event.rollback else Event.commit) := by
  intro rows
  induction rows with
  | nil => intro j; rfl
  | cons r rest ih =>
    intro j
    rw [insertLoop]
    cases hv : coerceRowValues columns additional r with
    | error e => rfl
    | ok vals =>
      by_cases hok : insertOk vals = true
      · simp only [hok, if_true]
        have htail := ih (j + 1)
        refine getLast?_cons_of_some _ _ _ ?_
        rw [List.getLast?_append, htail]
        rfl
      · simp only [hok, if_false]
        rfl

/-- `insert_data` on a nonempty row list that never fails does not
exit; on an empty row list it never exits either. -/
theorem copyLoop_all_ok (insertOk : List Value → Bool)
    (data : String → String → List (Option Int)) (leak : List ColumnInfo)
    (additional : List (String × AdditionalColumn)) :
    ∀ tables : List SourceTable,
      (∀ t ∈ tables, (insert_data insertOk t.name leak t.rows additional).exited = false) →
      (copyLoop insertOk data leak additional tables).2 = 0 := by
  intro tables
  induction tables with
  | nil => intro _; rfl
  | cons t rest ih =>
    intro h
    have hrest := ih (fun t2 ht2 => h t2 (List.mem_cons_of_mem t ht2))
    rw [copyLoop]
    by_cases hr : t.rows.isEmpty = true
    · simp only [hr, if_true]
      exact hrest
    · have hx := h t (List.mem_cons_self t rest)
      simp only [hr, if_false, hx]
      exact hrest

/-- If some table's `insert_data` run (with the leaked columns) exits,
the whole copy loop finishes with exit code 1 and its event trace ends
with the rollback. -/
theorem copyLoop_failure (insertOk : List Value → Bool)
    (data : String → String → List (Option Int)) (leak : List ColumnInfo)
    (additional : List (String × AdditionalColumn)) :
    ∀ tables : List SourceTable,
      (∃ t ∈ tables, (insert_data insertOk t.name leak t.rows additional).exited = true) →
      (copyLoop insertOk data leak additional tables).2 = 1 ∧
      (copyLoop insertOk data leak additional tables).1.getLast? = some Event.rollback := by
  intro tables
  induction tables with
  | nil => rintro ⟨t, ht, _⟩; cases ht
  | cons t rest ih =>
    rintro ⟨w, hw, hex⟩
    rw [copyLoop]
    by_cases hr : t.rows.isEmpty = true
    · rcases List.mem_cons.mp hw with rfl | hw2
      · rw [List.isEmpty_iff] at hr
        rw [hr] at hex
        simp [insert_data, insertLoop] at hex
      · have htail := ih ⟨w, hw2, hex⟩
        simp only [hr, if_true]
        exact ⟨htail.1, getLast?_cons_of_some _ _ _ htail.2⟩
    · simp only [hr, if_false]
      by_cases hex2 : (insert_data insertOk t.name leak t.rows additional).exited = true
      · simp only [hex2, if_true]
        refine ⟨rfl, getLast?_cons_of_some _ _ _ ?_⟩
        have := insertLoop_getLast insertOk
          (insert_query t.name leak additional) leak additional t.rows 0
        rw [insert_data] at hex2 ⊢
        rw [this, hex2]
        simp
      · rcases List.mem_cons.mp hw with rfl | hw2
        · exact absurd hex hex2
        · have htail := ih ⟨w, hw2, hex⟩
          simp only [Bool.not_eq_true] at hex2
          simp only [hex2, if_false]
          refine ⟨htail.1, getLast?_cons_of_some _ _ _ ?_⟩
          rw [List.getLast?_append, htail.2]
          rfl

/-- C9: declining confirmation ends the run with no target-side events
and exit code 0; a run in which no per-table copy exits finishes with
exit code 0; and as soon as some table's copy fails, the run ends with
exit code 1 and the trace ends with the rollback of the open
transaction — nothing (no row, no table) is processed after it. -/
theorem C9_abort_and_exit_codes (insertOk : List Value → Bool)
    (data : String → String → List (Option Int)) (tables : List SourceTable)
    (additional : List (String × AdditionalColumn)) :
    sqlite_to_postgresql false insertOk data tables additional = ([], 0) ∧
    ((∀ t ∈ tables,
        (insert_data insertOk t.name (leakedColumns tables) t.rows additional).exited = false) →
      (sqlite_to_postgresql true insertOk data tables additional).2 = 0) ∧
    ((∃ t ∈ tables,
        (insert_data insertOk t.name (leakedColumns tables) t.rows additional).exited = true) →
      (sqlite_to_postgresql true insertOk data tables additional).2 = 1 ∧
      (sqlite_to_postgresql true insertOk data tables additional).1.getLast? =
        some Event.rollback) := by
  refine ⟨rfl, ?_, ?_⟩
  · intro h
    exact copyLoop_all_ok insertOk data (leakedColumns tables) additional tables h
  · intro h
    exact copyLoop_failure insertOk data (leakedColumns tables) additional tables h

/-- C9 witness: the no-failure part of the theorem applied to a
one-table, one-row run that succeeds. -/
theorem C9_exit_code_witness :
    (sqlite_to_postgresql true (fun _ => true) (fun _ _ => [])
        [⟨"t", [⟨0, "x", "TEXT", 0, none, 0⟩], [], [[Value.text "a"]]⟩] []).2 = 0 :=
  (C9_abort_and_exit_codes (fun _ => true) (fun _ _ => [])
    [⟨"t", [⟨0, "x", "TEXT", 0, none, 0⟩], [], [[Value.text "a"]]⟩] []).2.1 (by decide)

/-- C1: the Copy phase does not use each table's own introspected
column sequence.  The planning loop leaves the Python variable
`columns` holding the last table's schema, and the copy loop passes
that to `insert_data` for every table: with tables `a(x TEXT)` (one
row) and `b(y TEXT, z TEXT)`, table `a`'s INSERT statement is built
from `b`'s columns `(y, z)` rather than `a`'s own `(x)`, and the
1-value row then fails the 2-column positional coercion, rolling back
and exiting with code 1 instead of copying the row. -/
theorem C1_copy_uses_stale_columns :
    leakedColumns [bugTableA, bugTableB] = bugTableB.schema ∧
    insert_query bugTableA.name (leakedColumns [bugTableA, bugTableB]) [] =
      "INSERT INTO a (y, z) VALUES (%s, %s)" ∧
    insert_query bugTableA.name bugTableA.schema [] = "INSERT INTO a (x) VALUES (%s)" ∧
    sqlite_to_postgresql true (fun _ => true) (fun _ _ => []) [bugTableA, bugTableB] [] =
      ([Event.executeDDL "CREATE TABLE IF NOT EXISTS a (x TEXT);", Event.rollback], 1) := by
  refine ⟨by decide, by decide, by decide, by decide⟩

/-- The character data of an appended string. -/
theorem strData_append (a b : String) : (a ++ b).data = a.data ++ b.data := rfl

/-- String append is associative. -/
theorem strAppend_assoc (a b c : String) : a ++ b ++ c = a ++ (b ++ c) :=
  String.ext (by simp [strData_append])

/-- The empty string is a right identity. -/
theorem strAppend_empty (a : String) : a ++ "" = a :=
  String.ext (by simp [strData_append])

/-- The empty string is a left identity. -/
theorem strEmpty_append (a : String) : "" ++ a = a :=
  String.ext (by simp [strData_append])

/-- The last character of an appended string with nonempty right part. -/
theorem getLast?_strAppend (a b : String) (hb : b.data ≠ []) :
    (a ++ b).data.getLast? = b.data.getLast? := by
  rw [strData_append, List.getLast?_append]
  cases hg : b.data.getLast? with
  | none =>
    exfalso
    rw [← List.head?_reverse] at hg
    cases hr : b.data.reverse with
    | nil => exact hb (by simpa using congrArg List.reverse hr)
    | cons c t => rw [hr] at hg; cases hg
  | some x => rfl

/-- Appending to the left preserves a safe ending. -/
theorem safeEnd_append (a b : String) (hb : b.data ≠ []) (hsb : SafeEnd b) :
    SafeEnd (a ++ b) := by
  unfold SafeEnd
  rw [getLast?_strAppend a b hb]
  exact hsb

/-- A good clause stays good with anything appended on the left. -/
theorem goodClause_append (a b : String) (hb : GoodClause b) : GoodClause (a ++ b) := by
  refine ⟨?_, safeEnd_append a b hb.1 hb.2⟩
  rw [strData_append]
  intro hx
  exact hb.1 (List.append_eq_nil.mp hx).2

/-- The `<clause>, ` accumulation over a list equals the joined clause
list followed by one trailing `, `. -/
theorem trailJoin_eq_commaJoin (l : List String) (h : l ≠ []) :
    trailJoin l = commaJoin l ++ ", " := by
  induction l with
  | nil => exact absurd rfl h
  | cons c t ih =>
    cases t with
    | nil =>
      show c ++ ", " ++ trailJoin [] = commaJoin [c] ++ ", "
      rw [trailJoin, commaJoin, strAppend_empty]
    | cons c2 t2 =>
      rw [trailJoin, ih (by simp), commaJoin]
      simp [strAppend_assoc]

/-- `trailJoin` distributes over list append. -/
theorem trailJoin_append (l1 l2 : List String) :
    trailJoin (l1 ++ l2) = trailJoin l1 ++ trailJoin l2 := by
  induction l1 with
  | nil => rw [List.nil_append, trailJoin, strEmpty_append]
  | cons c t ih =>
    rw [List.cons_append, trailJoin, trailJoin, ih]
    simp [strAppend_assoc]

/-- Each `query += f a ++ ", "` loop is a `trailJoin` over the mapped
list. -/
theorem foldl_clause_append {α : Type} (f : α → String) :
    ∀ (l : List α) (base : String),
      l.foldl (fun q a => q ++ f a ++ ", ") base = base ++ trailJoin (l.map f) := by
  intro l
  induction l with
  | nil => intro base; rw [List.foldl_nil, List.map_nil, trailJoin, strAppend_empty]
  | cons a t ih =>
    intro base
    rw [List.foldl_cons, ih, List.map_cons, trailJoin]
    simp [strAppend_assoc]

/-- `rstrip(', ')` removes exactly the one trailing `, ` from a string
that ends safely. -/
theorem rstrip_append_comma_space (s : String) (hs : SafeEnd s) :
    rstripCommaSpace (s ++ ", ") = s := by
  unfold rstripCommaSpace
  apply String.ext
  show ((s ++ ", ").data.reverse.dropWhile fun c => c = ',' || c = ' ').reverse = s.data
  rw [strData_append]
  rw [show (", " : String).data = [',', ' '] from rfl, List.reverse_append]
  rw [show ([',', ' '] : List Char).reverse = [' ', ','] from rfl]
  rw [show ([' ', ','] : List Char) ++ s.data.reverse = ' ' :: ',' :: s.data.reverse from rfl]
  show (List.dropWhile (fun c => c = ',' || c = ' ') s.data.reverse).reverse = s.data
  cases hr : s.data.reverse with
  | nil =>
    simp only [List.dropWhile_nil, List.reverse_nil]
    have hs0 : s.data = [] := by
      have h0 := congrArg List.reverse hr
      simpa using h0
    rw [hs0]
  | cons c rest =>
    have hc : s.data.getLast? = some c := by
      rw [← List.head?_reverse, hr]
      rfl
    have hneq : (c = ',' || c = ' ') = false := by
      rcases hs with ⟨h1, h2⟩
      rw [hc] at h1 h2
      simp only [Bool.or_eq_false_iff]
      constructor
      · by_contra hx
        simp only [Bool.not_eq_false, decide_eq_true_eq] at hx
        exact h1 (by rw [hx])
      · by_contra hx
        simp only [Bool.not_eq_false, decide_eq_true_eq] at hx
        exact h2 (by rw [hx])
    rw [List.dropWhile_cons, hneq]
    simp only [Bool.false_eq_true, if_false, ← hr, List.reverse_reverse]

/-- Every result of `convert_type` is one of six fixed type names, all
of which are good clause endings. -/
theorem convert_type_good (s : String) : GoodClause (convert_type s) := by
  simp only [convert_type]
  split_ifs <;> exact ⟨by decide, by decide, by decide⟩

/-- Every result of `resolveIntegerWidth` is a good clause ending. -/
theorem resolveIntegerWidth_good (l : List Int) : GoodClause (resolveIntegerWidth l) := by
  unfold resolveIntegerWidth
  split_ifs <;> exact ⟨by decide, by decide, by decide⟩

/-- Every resolved column type is a good clause ending. -/
theorem determine_column_type_good (data : String → String → List (Option Int))
    (t c ct : String) : GoodClause (determine_column_type data t c ct) := by
  unfold determine_column_type
  split_ifs
  · exact convert_type_good ct
  · exact resolveIntegerWidth_good _

/-- Extending a singly-space-joined constraint list on the left keeps
it a good clause. -/
theorem spaceJoin_cons_good (x : String) (l : List String)
    (h : GoodClause (spaceJoin l)) (hl : l ≠ []) : GoodClause (spaceJoin (x :: l)) := by
  cases l with
  | nil => exact absurd rfl hl
  | cons y t =>
    rw [spaceJoin]
    exact goodClause_append _ _ h

/-- An emitted `DEFAULT <literal>` constraint is a good clause when the
literal does not end in a comma or space. -/
theorem default_clause_good (c : ColumnInfo)
    (hd : ∀ s, c.dflt_value = some s →
      s.data.getLast? ≠ some ',' ∧ s.data.getLast? ≠ some ' ')
    (h3 : truthyOptStr c.dflt_value = true) :
    GoodClause ("DEFAULT " ++ c.dflt_value.getD "") := by
  cases hdv : c.dflt_value with
  | none => rw [hdv] at h3; simp [truthyOptStr] at h3
  | some s =>
    rw [Option.getD_some]
    have hs_ne : s.data ≠ [] := by
      intro hnil
      rw [hdv] at h3
      simp [truthyOptStr, hnil] at h3
    exact goodClause_append _ _ ⟨hs_ne, hd s hdv⟩

/-- The space-joined constraint list of one native column is either
empty or a good clause. -/
theorem constraints_good (c : ColumnInfo)
    (hd : ∀ s, c.dflt_value = some s →
      s.data.getLast? ≠ some ',' ∧ s.data.getLast? ≠ some ' ') :
    spaceJoin ((if c.pk ≠ 0 then ["PRIMARY KEY"] else []) ++
        (if c.notnull ≠ 0 then ["NOT NULL"] else []) ++
        (if truthyOptStr c.dflt_value then ["DEFAULT " ++ c.dflt_value.getD ""] else [])) = "" ∨
      GoodClause (spaceJoin ((if c.pk ≠ 0 then ["PRIMARY KEY"] else []) ++
        (if c.notnull ≠ 0 then ["NOT NULL"] else []) ++
        (if truthyOptStr c.dflt_value then ["DEFAULT " ++ c.dflt_value.getD ""] else []))) := by
  by_cases h1 : c.pk ≠ 0 <;> by_cases h2 : c.notnull ≠ 0 <;>
    by_cases h3 : truthyOptStr c.dflt_value = true <;>
    simp [h1, h2, h3]
  · right
    apply spaceJoin_cons_good
    · apply spaceJoin_cons_good
      · exact default_clause_good c hd h3
      · simp
    · simp
  · right
    apply spaceJoin_cons_good
    · exact ⟨by decide, by decide, by decide⟩
    · simp
  · right
    apply spaceJoin_cons_good
    · exact default_clause_good c hd h3
    · simp
  · right
    exact ⟨by decide, by decide, by decide⟩
  · right
    apply spaceJoin_cons_good
    · exact default_clause_good c hd h3
    · simp
  · right
    exact ⟨by decide, by decide, by decide⟩
  · right
    exact default_clause_good c hd h3
  · left
    rfl

/-- The native-column clause body: name, type, then the optional
constraint string, is a good clause. -/
theorem clause_tail_good (nm typ cs : String) (htyp : GoodClause typ)
    (hcs : cs = "" ∨ GoodClause cs) :
    GoodClause (nm ++ " " ++ typ ++ (if !cs.data.isEmpty then " " ++ cs else cs)) := by
  rcases hcs with rfl | hg
  · rw [show (if !("" : String).data.isEmpty then " " ++ "" else "") = "" from rfl,
      strAppend_empty]
    exact goodClause_append _ _ htyp
  · have hpos : (!cs.data.isEmpty) = true := by
      cases hcs2 : cs.data with
      | nil => exact absurd hcs2 hg.1
      | cons a t => rfl
    rw [if_pos hpos]
    exact goodClause_append _ _ (goodClause_append " " cs hg)

/-- Each emitted native-column clause is a good clause. -/
theorem nativeColumnClause_good (typ : String) (c : ColumnInfo) (htyp : GoodClause typ)
    (hd : ∀ s, c.dflt_value = some s →
      s.data.getLast? ≠ some ',' ∧ s.data.getLast? ≠ some ' ') :
    GoodClause (nativeColumnClause typ c) :=
  clause_tail_good c.name typ _ htyp (constraints_good c hd)

/-- Each emitted extra-column clause is a good clause. -/
theorem extraColumnClause_good (p : String × AdditionalColumn) :
    GoodClause (extraColumnClause p) :=
  goodClause_append _ _ (convert_type_good p.2.type)

/-- Each emitted unique-constraint clause is a good clause. -/
theorem uniqueClause_good (u : String × List String) : GoodClause (uniqueClause u) :=
  goodClause_append _ _ ⟨by decide, by decide, by decide⟩

/-- A comma-join of good clauses is itself a good clause. -/
theorem commaJoin_good (l : List String) (h : l ≠ []) (hall : ∀ s ∈ l, GoodClause s) :
    GoodClause (commaJoin l) := by
  induction l with
  | nil => exact absurd rfl h
  | cons c t ih =>
    cases t with
    | nil => exact hall c (List.mem_cons_self c [])
    | cons c2 t2 =>
      have hx := ih (by simp) (fun s hs => hall s (List.mem_cons_of_mem c hs))
      rw [commaJoin]
      exact goodClause_append _ _ hx

/-- Merging two consecutive `+= clause, ` loops. -/
theorem trailJoin_merge (pre : String) (l1 l2 : List String) :
    pre ++ trailJoin l1 ++ trailJoin l2 = pre ++ trailJoin (l1 ++ l2) := by
  rw [strAppend_assoc, trailJoin_append]

/-- Stripping the one trailing `, ` of a nonempty good clause list
turns the accumulated query into the comma-separated clause list. -/
theorem rstrip_clause_list (pre : String) (L : List String) (hL : L ≠ [])
    (hall : ∀ s ∈ L, GoodClause s) :
    rstripCommaSpace (pre ++ trailJoin L) = pre ++ commaJoin L := by
  have hGC := commaJoin_good L hL hall
  rw [trailJoin_eq_commaJoin L hL, ← strAppend_assoc]
  exact rstrip_append_comma_space _ (safeEnd_append _ _ hGC.1 hGC.2)

/-- C8: `create_table_query` emits exactly
`CREATE TABLE IF NOT EXISTS <table> (<clauses>);` where the
comma-separated clause list is, in order: one clause per native column
in source order (name, resolved type, then `PRIMARY KEY`, `NOT NULL`,
`DEFAULT <literal>` in this fixed order when applicable, the literal
verbatim), then one `name type` clause per extra column, then one
`UNIQUE (col1, col2, …)` clause per unique constraint with its columns
in recorded order.  Hypotheses: at least one clause exists (a zero
clause table is undefined behavior in the spec), and no emitted default
literal ends in a comma or space (otherwise `rstrip(', ')` would chew
into the last clause). -/
theorem C8_create_table_clause_order (data : String → String → List (Option Int))
    (table_name : String) (columns : List ColumnInfo)
    (additional_columns : List (String × AdditionalColumn))
    (unique_constraints : List (String × List String))
    (hne : columns ≠ [] ∨ additional_columns ≠ [] ∨ unique_constraints ≠ [])
    (hdflt : ∀ c ∈ columns, ∀ s, c.dflt_value = some s →
      s.data.getLast? ≠ some ',' ∧ s.data.getLast? ≠ some ' ') :
    create_table_query data table_name columns additional_columns unique_constraints =
      buildCreateTableSpec data table_name columns additional_columns unique_constraints := by
  have hAne : columns.map (fun c =>
        nativeColumnClause (determine_column_type data table_name c.name c.type) c) ++
      additional_columns.map extraColumnClause ++
      unique_constraints.map uniqueClause ≠ [] := by
    intro hx
    rcases List.append_eq_nil.mp hx with ⟨hx1, hx3⟩
    rcases List.append_eq_nil.mp hx1 with ⟨hxa, hxb⟩
    rcases hne with h | h | h
    · exact h (List.map_eq_nil_iff.mp hxa)
    · exact h (List.map_eq_nil_iff.mp hxb)
    · exact h (List.map_eq_nil_iff.mp hx3)
  have hGood : ∀ s ∈ columns.map (fun c =>
        nativeColumnClause (determine_column_type data table_name c.name c.type) c) ++
      additional_columns.map extraColumnClause ++
      unique_constraints.map uniqueClause, GoodClause s := by
    intro s hs
    rcases List.mem_append.mp hs with hs1 | hs3
    · rcases List.mem_append.mp hs1 with hsa | hsb
      · obtain ⟨c, hc, rfl⟩ := List.mem_map.mp hsa
        exact nativeColumnClause_good _ c
          (determine_column_type_good data table_name c.name c.type) (hdflt c hc)
      · obtain ⟨p, hp, rfl⟩ := List.mem_map.mp hsb
        exact extraColumnClause_good p
    · obtain ⟨u, hu, rfl⟩ := List.mem_map.mp hs3
      exact uniqueClause_good u
  simp only [create_table_query, buildCreateTableSpec]
  rw [foldl_clause_append, foldl_clause_append, foldl_clause_append,
    trailJoin_merge, trailJoin_merge, ← List.append_assoc,
    rstrip_clause_list _ _ hAne hGood]

/-- C8 counterexample: a default literal ending in a space is not
emitted verbatim into the final statement — the closing `rstrip(', ')`
strips trailing spaces and commas off the statement's last clause, so
`DEFAULT x ` comes out as `DEFAULT x`, deviating from the claimed
clause form at this input. -/
theorem C8_cex_trailing_space_default :
    create_table_query (fun _ _ => []) "t" [⟨0, "c", "TEXT", 0, some "x ", 0⟩] [] [] =
      "CREATE TABLE IF NOT EXISTS t (c TEXT DEFAULT x);" ∧
    create_table_query (fun _ _ => []) "t" [⟨0, "c", "TEXT", 0, some "x ", 0⟩] [] [] ≠
      buildCreateTableSpec (fun _ _ => []) "t" [⟨0, "c", "TEXT", 0, some "x ", 0⟩] [] [] := by
  refine ⟨by decide, by decide⟩

/-- C8 witness: the theorem applied to a one-column table with a
primary key, a `NOT NULL` default column, one extra column and one
two-column unique constraint. -/
theorem C8_create_table_witness :
    create_table_query (fun _ _ => []) "t" [⟨0, "id", "INTEGER", 1, some "7", 1⟩]
        [("src", ⟨"TEXT", Value.text "legacy"⟩)] [("ix", ["a", "b"])] =
      buildCreateTableSpec (fun _ _ => []) "t" [⟨0, "id", "INTEGER", 1, some "7", 1⟩]
        [("src", ⟨"TEXT", Value.text "legacy"⟩)] [("ix", ["a", "b"])] :=
  C8_create_table_clause_order (fun _ _ => []) "t" _ _ _ (Or.inl (by simp))
    (by
      intro c hc s hs
      rw [List.mem_singleton] at hc
      subst hc
      have hs7 : "7" = s := by injection hs
      subst hs7
      exact ⟨by decide, by decide⟩)

end SqliteToPg
